import Mathlib

/-!
Verification of the envelop-based Shopify GraphQL proxy cache (src/index.ts)
against its natural-language specification.

The embedding models the module-initialization sequence and the request
handler of src/index.ts:
  * environment configuration (process.env reads) as an `Env` record;
  * the upstream schema endpoint as an oracle giving the outcome of each
    successive network fetch;
  * `getSchema` (lines 15-24): one `loadSchema` fetch against the upstream;
  * `createCache` (lines 27-34) and the module-level `cache` (line 37);
  * the plugin list (lines 40-52): `useAsyncSchema(getSchema())`,
    `useResponseCache({...})`, and `useLogger()` pushed only in dev mode;
  * the `/graphql` handler's response branch (lines 94-101) and the
    `/` hello route (lines 60-62).

In JavaScript, `getSchema()` inside the array literal at line 41 is evaluated
exactly once, when the module loads; the resulting promise (whether it settles
fulfilled or rejected) is the single value handed to `useAsyncSchema`, and
every request awaits that same settled promise.  The process model below
mirrors this: `initProc` performs the single fetch and stores its outcome,
and `handleRequest` reads the stored outcome without fetching again.
-/

/-- A GraphQL schema handle: the loaded schema document. -/
abbrev Schema := String

/-- Failure of schema acquisition (the rejection of the loadSchema promise). -/
inductive SchemaError where
  | schemaUnavailable
deriving DecidableEq, Repr

/-- The environment variables read by src/index.ts. -/
structure Env where
  nodeEnv : Option String := none
  shopifyStore : Option String := none
  storefrontApiVersion : Option String := none
  storefrontApiPassword : Option String := none
  redisConnectionString : Option String := none
deriving DecidableEq, Repr

/-- Line 10: `const devMode = process.env["NODE_ENV"] === 'development'`. -/
def devMode (env : Env) : Bool := env.nodeEnv == some "development"

/-- The upstream schema endpoint: `fetchResult i` is the outcome the network
would give to the i-th schema fetch the process performs (0-indexed). -/
structure Upstream where
  fetchResult : Nat → Except SchemaError Schema

/-- Lines 15-24: `getSchema` performs one `loadSchema` network fetch against
the upstream endpoint; the `attempt` index says which fetch this call is in
the process lifetime. -/
def getSchema (u : Upstream) (attempt : Nat) : Except SchemaError Schema :=
  u.fetchResult attempt

/-- The URL built at line 16 from the environment (a JavaScript template
literal interpolates a missing variable as the text "undefined"). -/
def schemaUrl (env : Env) : String :=
  "https://" ++ env.shopifyStore.getD "undefined" ++ "/api/"
    ++ env.storefrontApiVersion.getD "undefined" ++ "/graphql.json"

/-- The two cache backends: the in-memory cache of
`createInMemoryCache()` and the Redis cache built from the configured
connection string. -/
inductive CacheBackend where
  | inMemory
  | redis (connectionString : Option String)
deriving DecidableEq, Repr

/-- Lines 27-34: `createCache` returns the in-memory cache in dev mode and
otherwise a Redis cache on `process.env.REDIS_CONNECTION_STRING`. -/
def createCache (dm : Bool) (env : Env) : CacheBackend :=
  if dm then CacheBackend.inMemory
  else CacheBackend.redis env.redisConnectionString

/-- The options object passed to `useResponseCache` at lines 42-46. -/
structure ResponseCacheConfig where
  includeExtensionMetadata : Bool
  ignoredTypes : List String
  cache : CacheBackend
deriving DecidableEq, Repr

/-- Lines 42-46 together with line 37: the response-cache plugin options,
with `cache` the module-level `createCache(devMode)` instance. -/
def responseCacheConfig (env : Env) : ResponseCacheConfig :=
  { includeExtensionMetadata := true
    ignoredTypes := []
    cache := createCache (devMode env) env }

instance {ε α : Type} [DecidableEq ε] [DecidableEq α] : DecidableEq (Except ε α) :=
  fun a b =>
    match a, b with
    | .ok x, .ok y =>
      if h : x = y then isTrue (by rw [h])
      else isFalse (by intro hh; cases hh; exact h rfl)
    | .error x, .error y =>
      if h : x = y then isTrue (by rw [h])
      else isFalse (by intro hh; cases hh; exact h rfl)
    | .ok _, .error _ => isFalse (by intro h; cases h)
    | .error _, .ok _ => isFalse (by intro h; cases h)

/-- The three envelop plugins appearing in src/index.ts.  `useAsyncSchema`
carries the settled value of the single promise it was handed. -/
inductive Plugin where
  | useAsyncSchema (schemaPromise : Except SchemaError Schema)
  | useResponseCache (config : ResponseCacheConfig)
  | useLogger
deriving DecidableEq, Repr

/-- Lines 40-52: the plugin list is `[useAsyncSchema(getSchema()),
useResponseCache({...})]`, with `useLogger()` pushed at the end only when
`devMode` holds.  `getSchema()` is evaluated here, once, so the promise
carried by `useAsyncSchema` is the outcome of fetch number 0. -/
def plugins (env : Env) (u : Upstream) : List Plugin :=
  [Plugin.useAsyncSchema (getSchema u 0),
   Plugin.useResponseCache (responseCacheConfig env)]
  ++ (if devMode env then [Plugin.useLogger] else [])

/-- Process-wide state fixed at module load: the settled outcome of the one
shared schema promise, the cache backend instance, and a count of upstream
schema fetches performed so far. -/
structure ProcState where
  schemaPromise : Except SchemaError Schema
  cache : CacheBackend
  fetchesPerformed : Nat
deriving DecidableEq, Repr

/-- Module initialization: line 37 creates the cache from `devMode`, and
line 41 calls `getSchema()` once — the one upstream fetch — storing the
shared promise. -/
def initProc (env : Env) (u : Upstream) : ProcState :=
  { schemaPromise := getSchema u 0
    cache := createCache (devMode env) env
    fetchesPerformed := 1 }

/-- One `/graphql` request (lines 67-102): `useAsyncSchema` awaits the shared
promise stored in the process state — no new fetch is issued and the cache
backend instance is untouched; the request observes the promise's settled
outcome. -/
def handleRequest (s : ProcState) : ProcState × Except SchemaError Schema :=
  (s, s.schemaPromise)

/-- Process `n` successive `/graphql` requests, collecting each request's
schema outcome. -/
def processRequests : ProcState → Nat → ProcState × List (Except SchemaError Schema)
  | s, 0 => (s, [])
  | s, n+1 =>
    let r := handleRequest s
    let rest := processRequests r.1 n
    (rest.1, r.2 :: rest.2)

/-- A GraphQL error object `{message: ...}`. -/
structure GraphQLError where
  message : String
deriving DecidableEq, Repr

/-- A GraphQL execution payload `{data?, errors?, extensions?}`; the `data`
and `extensions` contents are opaque serialized values here. -/
structure ExecutionPayload where
  data : Option String := none
  errors : Option (List GraphQLError) := none
  extensions : Option String := none
deriving DecidableEq, Repr

/-- The result `processRequest` (graphql-helix) hands the handler: a plain
response, or one of the streamed shapes the demo does not support. -/
inductive ProcessedResult where
  | RESPONSE (status : Nat) (payload : ExecutionPayload)
  | MULTIPART_RESPONSE
  | PUSH
deriving DecidableEq, Repr

/-- The `type` discriminator string of a graphql-helix result. -/
def ProcessedResult.type : ProcessedResult → String
  | .RESPONSE _ _ => "RESPONSE"
  | .MULTIPART_RESPONSE => "MULTIPART_RESPONSE"
  | .PUSH => "PUSH"

/-- What the handler sends back: the HTTP status and the body (fastify's
`res.send` with no explicit status defaults to 200). -/
structure HttpResponse where
  status : Nat
  body : ExecutionPayload
deriving DecidableEq, Repr

/-- The fixed payload sent at line 100. -/
def notSupportedPayload : ExecutionPayload :=
  { errors := some [{ message := "Not Supported in this demo" }] }

/-- Lines 94-101: on a RESPONSE result the handler sends the result's status
and payload; on any other result type it sends the fixed
not-supported payload. -/
def graphqlHandler (result : ProcessedResult) : HttpResponse :=
  match result with
  | .RESPONSE status payload => { status := status, body := payload }
  | _ => { status := 200, body := notSupportedPayload }

/-- The request shape assembled at lines 73-78. -/
structure HttpRequest where
  body : Option String := none
  headers : List (String × String) := []
  method : String := "GET"
  query : Option String := none
deriving DecidableEq, Repr

/-- Lines 60-62: the hello-world liveness route ignores the process state and
the request and sends a fixed greeting. -/
def helloHandler (_s : ProcState) (_req : HttpRequest) : String :=
  "Hello World!"

/-! ## Concrete instances used by counterexamples and witnesses -/

/-- An upstream whose first fetch fails and whose every later fetch would
succeed. -/
def flakyUpstream : Upstream :=
  ⟨fun n => match n with
    | 0 => Except.error SchemaError.schemaUnavailable
    | _ + 1 => Except.ok "schema"⟩

/-- A development-mode environment. -/
def devEnv : Env := { nodeEnv := some "development" }

/-! ## Cache-key derivation

The spec's Cache Key Deriver (§4.3) is implemented by the external
response-cache package, not by code in this repository; src/index.ts only
configures and installs that stage (lines 42-46).  The definitions below are
therefore modelled from the spec's words. -/

/-- Modelled from the spec: looking up a variable's serialized value by its
name in the variables mapping (part of the Cache Key Deriver, which is
missing from src/ — only its installation at lines 42-46 is present). -/
def lookupVar (k : String) : List (String × String) → Option String
  | [] => none
  | p :: rest => if p.1 = k then some p.2 else lookupVar k rest

/-- Modelled from the spec: the "stable ordering of mapping keys" used to
canonicalize variables — the variable names in sorted order. -/
def sortedKeys (vars : List (String × String)) : List String :=
  List.insertionSort (fun a b => a ≤ b) (vars.map Prod.fst)

/-- Modelled from the spec: canonicalized variables — each key in stable
sorted order paired with its value. -/
def canonicalVariables (vars : List (String × String)) : List (String × String) :=
  (sortedKeys vars).map (fun k => (k, (lookupVar k vars).getD ""))

/-- Modelled from the spec: `deriveKey` — a deterministic fingerprint built
by concatenating the normalized operation document, the operation name and
the canonicalized variables. -/
def deriveKey (doc opName : String) (vars : List (String × String)) : String :=
  doc ++ "|" ++ opName ++ "|"
    ++ String.intercalate "," ((canonicalVariables vars).map (fun p => p.1 ++ ":" ++ p.2))

/-! ## Helper lemmas -/

lemma processRequests_eq (n : Nat) (s : ProcState) :
    processRequests s n = (s, List.replicate n s.schemaPromise) := by
  induction n with
  | zero => rfl
  | succ n ih => simp [processRequests, handleRequest, ih, List.replicate]

lemma lookupVar_perm {l₁ l₂ : List (String × String)} (h : l₁.Perm l₂) :
    (l₁.map Prod.fst).Nodup → ∀ k, lookupVar k l₁ = lookupVar k l₂ := by
  induction h with
  | nil => intro _ _; rfl
  | cons x _ ih =>
    intro nd k
    simp only [List.map_cons, List.nodup_cons] at nd
    by_cases hx : x.1 = k <;> simp [lookupVar, hx, ih nd.2 k]
  | swap x y l =>
    intro nd k
    simp only [List.map_cons, List.nodup_cons, List.mem_cons, not_or] at nd
    by_cases hy : y.1 = k <;> by_cases hx : x.1 = k <;>
      simp [lookupVar, hx, hy]
    exact absurd (hy.trans hx.symm) nd.1.1
  | trans h₁ _ ih₁ ih₂ =>
    intro nd k
    have nd₂ := ((h₁.map Prod.fst).nodup_iff).mp nd
    exact (ih₁ nd k).trans (ih₂ nd₂ k)

lemma sortedKeys_perm {l₁ l₂ : List (String × String)} (h : l₁.Perm l₂) :
    sortedKeys l₁ = sortedKeys l₂ := by
  have hk : (l₁.map Prod.fst).Perm (l₂.map Prod.fst) := h.map Prod.fst
  exact List.eq_of_perm_of_sorted
    (((List.perm_insertionSort (fun a b : String => a ≤ b) _).trans hk).trans
      (List.perm_insertionSort (fun a b : String => a ≤ b) _).symm)
    (List.sorted_insertionSort (fun a b : String => a ≤ b) _)
    (List.sorted_insertionSort (fun a b : String => a ≤ b) _)

lemma canonicalVariables_perm {l₁ l₂ : List (String × String)} (h : l₁.Perm l₂)
    (nd : (l₁.map Prod.fst).Nodup) :
    canonicalVariables l₁ = canonicalVariables l₂ := by
  unfold canonicalVariables
  rw [sortedKeys_perm h]
  exact List.map_congr_left (fun k _ => by rw [lookupVar_perm h nd k])

/-! ## Claims -/

/-- Claim C2 (confirmed): schema acquisition is single-flight — for any number
of requests, the process performs exactly one upstream schema fetch (the one
at module load), and every request observes the same eventual outcome of that
single fetch, hence shares the same schema handle. -/
theorem schema_single_flight (env : Env) (u : Upstream) (n : Nat) :
    (processRequests (initProc env u) n).1.fetchesPerformed = 1 ∧
    (processRequests (initProc env u) n).2 = List.replicate n (getSchema u 0) := by
  rw [processRequests_eq]
  exact ⟨rfl, rfl⟩

/-- Claim C1, counterexample: with an upstream whose first fetch fails and
whose second fetch would succeed, the request arriving after the failed first
acquisition still receives the cached failure — no fresh acquisition happens
(the fetch count stays 1), contradicting the claim that it would succeed. -/
theorem schema_failure_not_cached_cex :
    getSchema flakyUpstream 0 = Except.error SchemaError.schemaUnavailable ∧
    getSchema flakyUpstream 1 = Except.ok "schema" ∧
    (processRequests (initProc devEnv flakyUpstream) 2).2 =
      [Except.error SchemaError.schemaUnavailable,
       Except.error SchemaError.schemaUnavailable] ∧
    (processRequests (initProc devEnv flakyUpstream) 2).1.fetchesPerformed = 1 := by
  refine ⟨rfl, rfl, ?_, ?_⟩ <;> rw [processRequests_eq] <;> rfl

/-- Claim C1 (corrected): the failure of the single module-load schema fetch
IS cached — when fetch 0 fails with `e`, every subsequent request observes
that same error and no fresh acquisition is ever attempted, even if a new
fetch would succeed. -/
theorem schema_failure_is_cached (env : Env) (u : Upstream) (e : SchemaError)
    (h : u.fetchResult 0 = Except.error e) (n : Nat) :
    (processRequests (initProc env u) n).2 = List.replicate n (Except.error e) ∧
    (processRequests (initProc env u) n).1.fetchesPerformed = 1 := by
  rw [processRequests_eq]
  exact ⟨by simp [initProc, getSchema, h], rfl⟩

/-- Witness for `schema_failure_is_cached` at the concrete flaky upstream with
two requests. -/
theorem schema_failure_is_cached_witness :
    flakyUpstream.fetchResult 0 = Except.error SchemaError.schemaUnavailable ∧
    ((processRequests (initProc devEnv flakyUpstream) 2).2 =
       List.replicate 2 (Except.error SchemaError.schemaUnavailable) ∧
     (processRequests (initProc devEnv flakyUpstream) 2).1.fetchesPerformed = 1) :=
  ⟨rfl, schema_failure_is_cached devEnv flakyUpstream SchemaError.schemaUnavailable rfl 2⟩

/-- Claim C3 (confirmed): the cache backend is chosen exactly once at process
start from the single `devMode` switch — in-memory in development, Redis on
the configured connection string otherwise — and request handling never
switches it: after any number of requests the backend is the one created at
initialization. -/
theorem cache_backend_selection (env : Env) (u : Upstream) (n : Nat) :
    (initProc env u).cache =
      (if devMode env then CacheBackend.inMemory
       else CacheBackend.redis env.redisConnectionString) ∧
    (processRequests (initProc env u) n).1.cache = (initProc env u).cache := by
  refine ⟨?_, by rw [processRequests_eq]⟩
  by_cases h : devMode env <;> simp [initProc, createCache, h]

/-- Claim C4 (confirmed): any result whose type is not RESPONSE is answered
with the fixed not-supported payload `{errors: [{message: "Not Supported in
this demo"}]}`. -/
theorem non_response_fixed_payload (r : ProcessedResult)
    (h : ProcessedResult.type r ≠ "RESPONSE") :
    (graphqlHandler r).body = notSupportedPayload := by
  cases r with
  | RESPONSE status payload => exact absurd rfl h
  | MULTIPART_RESPONSE => rfl
  | PUSH => rfl

/-- Witness for `non_response_fixed_payload` at a concrete streamed result. -/
theorem non_response_fixed_payload_witness :
    ProcessedResult.type ProcessedResult.MULTIPART_RESPONSE ≠ "RESPONSE" ∧
    (graphqlHandler ProcessedResult.MULTIPART_RESPONSE).body = notSupportedPayload :=
  ⟨by decide, non_response_fixed_payload ProcessedResult.MULTIPART_RESPONSE (by decide)⟩

/-- Claim C5 (confirmed): the plugin list is composed in a fixed order —
`useAsyncSchema` first, `useResponseCache` second, and `useLogger` appended
after both exactly when the process runs in development mode. -/
theorem plugin_composition_order (env : Env) (u : Upstream) :
    (plugins env u).head? = some (Plugin.useAsyncSchema (getSchema u 0)) ∧
    (plugins env u)[1]? = some (Plugin.useResponseCache (responseCacheConfig env)) ∧
    (Plugin.useLogger ∈ plugins env u ↔ devMode env = true) ∧
    plugins env u =
      (if devMode env then
        [Plugin.useAsyncSchema (getSchema u 0),
         Plugin.useResponseCache (responseCacheConfig env), Plugin.useLogger]
       else
        [Plugin.useAsyncSchema (getSchema u 0),
         Plugin.useResponseCache (responseCacheConfig env)]) := by
  by_cases h : devMode env <;> simp [plugins, h]

/-- Claim C6 (confirmed): a RESPONSE result is handed back unchanged — its
status becomes the HTTP status and its payload becomes the body. -/
theorem response_passed_through (status : Nat) (payload : ExecutionPayload) :
    graphqlHandler (ProcessedResult.RESPONSE status payload) =
      { status := status, body := payload } :=
  rfl

/-- Modelled from the spec: the ignored-types exclusion of the response-cache
stage — "a successful response containing a type in the ignored-types set is
never written to the cache".  The library code implementing the check lives in
the external response-cache package, not in this repository; this predicate
follows the spec's words: a result is excluded from caching exactly when one
of the GraphQL type names appearing in it is in the configured
`ignoredTypes`. -/
def excludedFromCaching (cfg : ResponseCacheConfig) (resultTypes : List String) : Bool :=
  resultTypes.any (fun t => cfg.ignoredTypes.contains t)

/-- Claim C8 (confirmed): the configured exclusion set is empty, so no result
is ever disqualified from caching by its types. -/
theorem ignored_types_empty (env : Env) (resultTypes : List String) :
    (responseCacheConfig env).ignoredTypes = [] ∧
    excludedFromCaching (responseCacheConfig env) resultTypes = false := by
  refine ⟨rfl, ?_⟩
  simp [excludedFromCaching, responseCacheConfig]

/-- Claim C9 (confirmed): `includeExtensionMetadata` is set to `true`
unconditionally — the option does not depend on the deployment mode or any
other configuration. -/
theorem extension_metadata_always_on (env : Env) :
    (responseCacheConfig env).includeExtensionMetadata = true :=
  rfl

/-- Claim C10 (confirmed): the liveness route always returns the fixed
greeting, independent of process state and request. -/
theorem hello_route_fixed (s₁ s₂ : ProcState) (r₁ r₂ : HttpRequest) :
    helloHandler s₁ r₁ = "Hello World!" ∧ helloHandler s₁ r₁ = helloHandler s₂ r₂ :=
  ⟨rfl, rfl⟩

/-- Claim C7 (confirmed, against the spec-modelled deriver): key derivation
is deterministic — deriving twice on the same inputs gives the same key —
and permutation-invariant: serializing the same variables mapping (distinct
keys) in a different order gives the same key. -/
theorem deriveKey_deterministic (doc opName : String)
    (v₁ v₂ : List (String × String)) (hperm : v₁.Perm v₂)
    (hnd : (v₁.map Prod.fst).Nodup) :
    deriveKey doc opName v₁ = deriveKey doc opName v₁ ∧
    deriveKey doc opName v₁ = deriveKey doc opName v₂ := by
  refine ⟨rfl, ?_⟩
  unfold deriveKey
  rw [canonicalVariables_perm hperm hnd]

/-- Witness for `deriveKey_deterministic`: two serializations of the mapping
with keys a and b, in either order, give the same key. -/
theorem deriveKey_deterministic_witness :
    ([("b", "2"), ("a", "1")] : List (String × String)).Perm
      [("a", "1"), ("b", "2")] ∧
    (deriveKey "q" "op" [("b", "2"), ("a", "1")] =
       deriveKey "q" "op" [("b", "2"), ("a", "1")] ∧
     deriveKey "q" "op" [("b", "2"), ("a", "1")] =
       deriveKey "q" "op" [("a", "1"), ("b", "2")]) :=
  ⟨List.Perm.swap ("a", "1") ("b", "2") [],
   deriveKey_deterministic "q" "op" _ _
     (List.Perm.swap ("a", "1") ("b", "2") []) (by decide)⟩
